import Mathlib

/-!
Shallow embedding of the TV-backlight integration subsystem of the
RTS-AV repository (src/backlight-integration.js), together with theorems
settling the specification claims about it.

JavaScript values are modelled as follows: numbers that only ever hold
integer pixel data are `ℤ`; numbers that hold fractional tuning gains are
`ℚ`; strings are `String`; `null`/`undefined` object fields are `Option`;
a possibly-`undefined` array read (`data[i]` out of bounds) is `Option ℤ`.
JS truthiness of a nullable string (`if (this.previousVisualizationMode)`)
is false exactly on `none` and `some ""`.
-/

/-- A sampled pixel colour as stored in an edge zone: the three channels,
each an `Option ℤ` because an out-of-range JS array read yields
`undefined` which is then stored verbatim in the zone entry. -/
abbrev Px := Option ℤ × Option ℤ × Option ℤ

/-- The four per-edge zone colour sequences (`this.edgeZones`). -/
structure EdgeZones where
  top : List Px
  right : List Px
  bottom : List Px
  left : List Px
deriving DecidableEq

/-- Models `initializeEdgeZones`: top/bottom have 16 zones, left/right 9, all
initialised to `[0, 0, 0]`. -/
def initializeEdgeZones : EdgeZones :=
  { top := List.replicate 16 (some 0, some 0, some 0)
    bottom := List.replicate 16 (some 0, some 0, some 0)
    left := List.replicate 9 (some 0, some 0, some 0)
    right := List.replicate 9 (some 0, some 0, some 0) }

/-- JS array indexing on the pixel buffer: `data[i]` is `undefined`
(`none`) when `i` is negative or past the end. -/
def jsRead (data : List ℤ) (i : ℤ) : Option ℤ :=
  if 0 ≤ i then data.get? i.toNat else none

/-- Read one RGB sample starting at channel index `p`
(`[data[p], data[p+1], data[p+2]]`). -/
def samplePx (data : List ℤ) (p : ℤ) : Px :=
  (jsRead data p, jsRead data (p + 1), jsRead data (p + 2))

/-- Index-aware map used to model the in-place `for` loops that overwrite
every entry of a zone array (`this.edgeZones.top[i] = ...`). -/
def mapWithIndex (f : ℕ → α → β) : List α → ℕ → List β
  | [], _ => []
  | a :: as, i => f i a :: mapWithIndex f as (i + 1)

/-- Models `sampleEdgeColors(ctx, width, height)`: overwrites every zone entry
with a point sample of the frame buffer. `data` is the flat RGBA channel
buffer returned by `ctx.getImageData(0, 0, width, height)` (length
`4 * width * height`). Sample positions: top row is 2 pixels down, bottom
3 pixels up, left 2 pixels right, right 3 pixels left; the horizontal or
vertical position of zone `i` out of `n` is `Math.floor((i / n) * size)`,
which for natural `i`, `n`, `size` equals `i * size / n` in floor
division. Pixel indices are computed in `ℤ` because `height - 3` and
`width - 3` go negative on degenerate frames, exactly as in JS. There is
no guard on `width`/`height`. -/
def sampleEdgeColors (data : List ℤ) (width height : ℕ) (z : EdgeZones) : EdgeZones :=
  let W : ℤ := width
  let H : ℤ := height
  { top := mapWithIndex (fun i _ =>
      let x : ℤ := (i * width / z.top.length : ℕ)
      samplePx data ((x + 2 * W) * 4)) z.top 0
    bottom := mapWithIndex (fun i _ =>
      let x : ℤ := (i * width / z.bottom.length : ℕ)
      samplePx data ((x + (H - 3) * W) * 4)) z.bottom 0
    left := mapWithIndex (fun i _ =>
      let y : ℤ := (i * height / z.left.length : ℕ)
      samplePx data ((2 + y * W) * 4)) z.left 0
    right := mapWithIndex (fun i _ =>
      let y : ℤ := (i * height / z.right.length : ℕ)
      samplePx data ((W - 3 + y * W) * 4)) z.right 0 }

/-- The numeric core of `getAverageColorString(colorArray)`: unweighted
per-channel mean (`Math.floor(total / length)`), then multiplication by
the saturation gain and `Math.min(255, Math.floor(...))`. The source
additionally formats the result as an `rgba(...)` CSS string; the claims
are about the channel values. Inputs are plain integer triples (the
byte-valued case the aggregator contract allows). -/
def getAverageColor (colorArray : List (ℤ × ℤ × ℤ)) (saturation : ℚ) : ℤ × ℤ × ℤ :=
  let totalR : ℤ := (colorArray.map (fun c => c.1)).sum
  let totalG : ℤ := (colorArray.map (fun c => c.2.1)).sum
  let totalB : ℤ := (colorArray.map (fun c => c.2.2)).sum
  let n : ℚ := colorArray.length
  let avgR : ℤ := ⌊(totalR : ℚ) / n⌋
  let avgG : ℤ := ⌊(totalG : ℚ) / n⌋
  let avgB : ℤ := ⌊(totalB : ℚ) / n⌋
  let satR : ℤ := min 255 ⌊(avgR : ℚ) * saturation⌋
  let satG : ℤ := min 255 ⌊(avgG : ℚ) * saturation⌋
  let satB : ℤ := min 255 ⌊(avgB : ℚ) * saturation⌋
  (satR, satG, satB)

/-- The renderer's mutable parameter bag (`visualizer.options`) as read
and written by `BacklightSystem`. -/
structure VisualizerOptions where
  colorIntensity : ℚ
  edgeFalloff : ℚ
  transitionSpeed : String
  visualizationMode : String
deriving DecidableEq

/-- The snapshot taken by `applyOptimizedSettings` into
`this.previousSettings`. -/
structure PreviousSettings where
  colorIntensity : ℚ
  edgeFalloff : ℚ
  transitionSpeed : String
  visualizationMode : String
deriving DecidableEq

/-- A `supportedSystems` record: vendor name and connection flag (the
credential fields play no role in the claims). -/
structure SupportedSystem where
  name : String
  connected : Bool
deriving DecidableEq

/-- State of a `BacklightSystem` instance. The visualizer is `Option`
because the constructor accepts a null visualizer and several methods
guard on `!this.visualizer`. -/
structure BacklightSystem where
  visualizer : Option VisualizerOptions
  isEnabled : Bool
  backlightMode : String
  edgeEmphasis : ℚ
  colorSaturation : ℚ
  smoothingFactor : ℚ
  transitionSpeed : String
  supportedSystems : List SupportedSystem
  edgeZones : EdgeZones
  previousSettings : Option PreviousSettings
  previousVisualizationMode : Option String
deriving DecidableEq

/-- Models `new BacklightSystem(visualizer)`. -/
def BacklightSystem.init (v : Option VisualizerOptions) : BacklightSystem :=
  { visualizer := v
    isEnabled := false
    backlightMode := "adaptive"
    edgeEmphasis := 7/10
    colorSaturation := 6/5
    smoothingFactor := 3/10
    transitionSpeed := "medium"
    supportedSystems :=
      [⟨"Govee", false⟩, ⟨"Philips Hue", false⟩, ⟨"WLED", false⟩, ⟨"Hyperion", false⟩]
    edgeZones := initializeEdgeZones
    previousSettings := none
    previousVisualizationMode := none }

/-- JS truthiness of a nullable string field: `null`/`undefined` and the
empty string are falsy. -/
def truthyStr : Option String → Bool
  | none => false
  | some s => s ≠ ""

/-- Models `enableEdgeEmphasisMode()`: records the renderer's current
visualization mode in `this.previousVisualizationMode` and switches the
renderer to the `'backlight'` mode. -/
def BacklightSystem.enableEdgeEmphasisMode (s : BacklightSystem) : BacklightSystem :=
  match s.visualizer with
  | none => s
  | some opts =>
      { s with
        previousVisualizationMode := some opts.visualizationMode
        visualizer := some { opts with visualizationMode := "backlight" } }

/-- Models `applyOptimizedSettings()`: unconditionally snapshots the four
renderer parameters into `this.previousSettings`, overwrites intensity,
falloff and transition speed with the backlight tuning values, and in
`'adaptive'` mode additionally calls `enableEdgeEmphasisMode`. -/
def BacklightSystem.applyOptimizedSettings (s : BacklightSystem) : BacklightSystem :=
  match s.visualizer with
  | none => s
  | some opts =>
      let s1 : BacklightSystem :=
        { s with
          previousSettings := some
            { colorIntensity := opts.colorIntensity
              edgeFalloff := opts.edgeFalloff
              transitionSpeed := opts.transitionSpeed
              visualizationMode := opts.visualizationMode }
          visualizer := some
            { opts with
              colorIntensity := s.colorSaturation
              edgeFalloff := s.edgeEmphasis
              transitionSpeed := s.transitionSpeed } }
      if s1.backlightMode = "adaptive" then s1.enableEdgeEmphasisMode else s1

/-- Models `restoreStandardSettings()`: no-op when the visualizer or
`previousSettings` is missing; otherwise writes intensity, falloff and
transition speed back from the snapshot, and restores the visualization
mode only when `this.previousVisualizationMode` is truthy (which it then
nulls out). `previousSettings` itself is never cleared. -/
def BacklightSystem.restoreStandardSettings (s : BacklightSystem) : BacklightSystem :=
  match s.visualizer, s.previousSettings with
  | some opts, some prev =>
      let opts1 : VisualizerOptions :=
        { opts with
          colorIntensity := prev.colorIntensity
          edgeFalloff := prev.edgeFalloff
          transitionSpeed := prev.transitionSpeed }
      if truthyStr s.previousVisualizationMode then
        match s.previousVisualizationMode with
        | some m =>
            { s with
              visualizer := some { opts1 with visualizationMode := m }
              previousVisualizationMode := none }
        | none => { s with visualizer := some opts1 }
      else { s with visualizer := some opts1 }
  | _, _ => s

/-- Models `toggle(enable)`: sets `isEnabled` and then applies or restores the
settings accordingly (the method also returns `this.isEnabled`, which
always equals the argument). -/
def BacklightSystem.toggle (s : BacklightSystem) (enable : Bool) : BacklightSystem :=
  let s1 := { s with isEnabled := enable }
  if s1.isEnabled then s1.applyOptimizedSettings else s1.restoreStandardSettings

/-- Models `setMode(mode)`: stores the mode and sets per-mode tuning defaults;
`'direct'` only kicks off asynchronous device discovery
(`attemptDirectConnection`), which changes no synchronous state. -/
def BacklightSystem.setMode (s : BacklightSystem) (mode : String) : BacklightSystem :=
  let s1 := { s with backlightMode := mode }
  if mode = "adaptive" then
    { s1 with edgeEmphasis := 7/10, colorSaturation := 6/5, smoothingFactor := 3/10 }
  else if mode = "ambilight" then
    { s1 with edgeEmphasis := 9/10, colorSaturation := 7/5, smoothingFactor := 1/5 }
  else s1

/-- The Govee payload built by `formatDataForGovee()`: the constant
device/model/command fields and the single RGB colour value. -/
structure GoveeData where
  device : String
  model : String
  cmdName : String
  r : Option ℤ
  g : Option ℤ
  b : Option ℤ
deriving DecidableEq

/-- Models `formatDataForGovee()`: reads the raw zone entry at index
`Math.floor(top.length / 2)` of the top edge and packages its three
channels. (If the index were out of range the JS code would throw on the
channel access; that path is unreachable because the top array always has
its 16 initial entries, and is modelled as `none` channels.) -/
def formatDataForGovee (z : EdgeZones) : GoveeData :=
  let i := z.top.length / 2
  { device := "H6199"
    model := "H6199"
    cmdName := "color"
    r := (z.top.get? i).bind (fun px => px.1)
    g := (z.top.get? i).bind (fun px => px.2.1)
    b := (z.top.get? i).bind (fun px => px.2.2) }

/-- One observable external action of the per-frame path: reading the
canvas pixels, sending to a vendor, or drawing the emphasis glow. The
Govee send carries the payload built for it; the Philips Hue and WLED
senders only log, building no payload. -/
inductive FrameEffect where
  | readPixels : FrameEffect
  | sendGovee : GoveeData → FrameEffect
  | sendPhilipsHue : FrameEffect
  | sendWLED : FrameEffect
  | drawEmphasis : FrameEffect
deriving DecidableEq

/-- Models `sendColorDataToConnectedSystems()`: filters `supportedSystems` to the
connected records and dispatches per vendor name; names other than the
three handled vendors do nothing. -/
def sendColorDataToConnectedSystems (systems : List SupportedSystem) (z : EdgeZones) :
    List FrameEffect :=
  (systems.filter (fun sys => sys.connected)).filterMap (fun sys =>
    if sys.name = "Govee" then some (FrameEffect.sendGovee (formatDataForGovee z))
    else if sys.name = "Philips Hue" then some FrameEffect.sendPhilipsHue
    else if sys.name = "WLED" then some FrameEffect.sendWLED
    else none)

/-- Models `processFrame(ctx, width, height)`: returns the updated system state
together with the list of external actions performed, in order. Disabled
systems return immediately; otherwise the edges are sampled (one canvas
read), `'direct'` mode dispatches to connected systems, and
`'adaptive'`/`'ambilight'` modes draw the emphasis glow. -/
def BacklightSystem.processFrame (s : BacklightSystem) (data : List ℤ) (width height : ℕ) :
    BacklightSystem × List FrameEffect :=
  if !s.isEnabled then (s, [])
  else
    let z := sampleEdgeColors data width height s.edgeZones
    let s1 := { s with edgeZones := z }
    let sends :=
      if s1.backlightMode = "direct" then sendColorDataToConnectedSystems s1.supportedSystems z
      else []
    let glow :=
      if s1.backlightMode = "adaptive" ∨ s1.backlightMode = "ambilight" then
        [FrameEffect.drawEmphasis]
      else []
    (s1, FrameEffect.readPixels :: (sends ++ glow))

/-- The recording visualizer's parameter bag as read and written by
`BacklightRecordingOptimizer` (`visualizer.options`). -/
structure RVOptions where
  colorSaturation : ℚ
  visualizationMode : String
  edgeEmphasis : ℚ
deriving DecidableEq

/-- State of a `BacklightRecordingOptimizer` instance. `recorder = true`
models a non-null `MediaRecorder`; recorded chunks are modelled by their
sizes. -/
structure RecordingOptimizer where
  visualizer : Option RVOptions
  isEnabled : Bool
  originalSettings : Option RVOptions
  recorder : Bool
  recordedChunks : List ℕ
deriving DecidableEq

/-- Models `new BacklightRecordingOptimizer(visualizer)`. -/
def RecordingOptimizer.init (v : Option RVOptions) : RecordingOptimizer :=
  { visualizer := v
    isEnabled := false
    originalSettings := none
    recorder := false
    recordedChunks := [] }

/-- Models `enable()`: returns `false` with no change when the visualizer is
missing; otherwise snapshots the three option fields into
`originalSettings`, overwrites them with the fixed recording values
(saturation 1.3, mode `'backlight'`, emphasis 0.9) and sets `isEnabled`. -/
def RecordingOptimizer.enable (s : RecordingOptimizer) : RecordingOptimizer × Bool :=
  match s.visualizer with
  | none => (s, false)
  | some v =>
      ({ s with
          originalSettings := some
            { colorSaturation := v.colorSaturation
              visualizationMode := v.visualizationMode
              edgeEmphasis := v.edgeEmphasis }
          visualizer := some
            { colorSaturation := 13/10
              visualizationMode := "backlight"
              edgeEmphasis := 9/10 }
          isEnabled := true }, true)

/-- Models `disable()`: returns `false` with no change when the visualizer or
`originalSettings` is missing; otherwise writes the saved three fields
back and clears `isEnabled`. It does not null out `originalSettings`. -/
def RecordingOptimizer.disable (s : RecordingOptimizer) : RecordingOptimizer × Bool :=
  match s.visualizer, s.originalSettings with
  | some _, some orig =>
      ({ s with visualizer := some orig, isEnabled := false }, true)
  | _, _ => (s, false)

/-- Models `startRecording(canvas, audioContext)`: returns `false` with no change
when the canvas is missing; otherwise calls `enable()`, captures the
stream, installs a fresh `MediaRecorder` (replacing any existing one),
resets `recordedChunks` and starts recording. There is no check that a
session is already active. -/
def RecordingOptimizer.startRecording (s : RecordingOptimizer) (canvasPresent : Bool) :
    RecordingOptimizer × Bool :=
  if !canvasPresent then (s, false)
  else
    let s1 := s.enable.1
    ({ s1 with recorder := true, recordedChunks := [] }, true)

/-- The recorder's `ondataavailable` handler: appends the chunk when its
size is positive. -/
def RecordingOptimizer.ondataavailable (s : RecordingOptimizer) (size : ℕ) :
    RecordingOptimizer :=
  if 0 < size then { s with recordedChunks := s.recordedChunks ++ [size] } else s

/-- A sequence of `ondataavailable` events delivered during a session. -/
def RecordingOptimizer.deliverData (s : RecordingOptimizer) (events : List ℕ) :
    RecordingOptimizer :=
  events.foldl RecordingOptimizer.ondataavailable s

/-- Models `stopRecording()`: rejects when no recorder exists; otherwise the
`onstop` handler runs `disable()` once, assembles the blob from
`recordedChunks`, and the promise resolves with it. The resolved state is
exactly one application of `disable` to the pre-stop state. -/
def RecordingOptimizer.stopRecording (s : RecordingOptimizer) :
    Except String (RecordingOptimizer × List ℕ) :=
  if !s.recorder then Except.error "No recording in progress"
  else
    let s1 := s.disable.1
    Except.ok (s1, s1.recordedChunks)

/-! Helper lemmas and shared concrete states -/

theorem length_mapWithIndex (f : ℕ → α → β) :
    ∀ (l : List α) (i : ℕ), (mapWithIndex f l i).length = l.length
  | [], _ => rfl
  | _ :: as, i => by simp [mapWithIndex, length_mapWithIndex f as (i + 1)]

theorem mapWithIndex_const {f : ℕ → α → β} {c : β} (h : ∀ i a, f i a = c) :
    ∀ (l : List α) (i : ℕ), mapWithIndex f l i = List.replicate l.length c
  | [], _ => rfl
  | a :: as, i => by
      simp [mapWithIndex, h i a, List.replicate_succ, mapWithIndex_const h as (i + 1)]

theorem jsRead_nil (i : ℤ) : jsRead [] i = none := by
  unfold jsRead; split <;> simp

theorem samplePx_nil (p : ℤ) : samplePx [] p = (none, none, none) := by
  simp [samplePx, jsRead_nil]

/-- The `ondataavailable` handler only appends to `recordedChunks`; all other fields
are untouched by any sequence of data events. -/
theorem deliverData_fields (evs : List ℕ) :
    ∀ s : RecordingOptimizer,
      (s.deliverData evs).visualizer = s.visualizer ∧
      (s.deliverData evs).originalSettings = s.originalSettings ∧
      (s.deliverData evs).isEnabled = s.isEnabled ∧
      (s.deliverData evs).recorder = s.recorder := by
  induction evs with
  | nil => intro s; simp [RecordingOptimizer.deliverData]
  | cons e es ih =>
      intro s
      have hstep : (s.ondataavailable e).visualizer = s.visualizer ∧
          (s.ondataavailable e).originalSettings = s.originalSettings ∧
          (s.ondataavailable e).isEnabled = s.isEnabled ∧
          (s.ondataavailable e).recorder = s.recorder := by
        unfold RecordingOptimizer.ondataavailable; split <;> simp
      have hrest := ih (s.ondataavailable e)
      simp only [RecordingOptimizer.deliverData, List.foldl_cons] at hrest ⊢
      exact ⟨hrest.1.trans hstep.1, hrest.2.1.trans hstep.2.1,
             hrest.2.2.1.trans hstep.2.2.1, hrest.2.2.2.trans hstep.2.2.2⟩

/-- A typical standard renderer configuration, used as the concrete
starting point of several counterexamples. -/
def standardOptions : VisualizerOptions := ⟨1, 1/2, "fast", "spectrum"⟩

/-- A freshly constructed backlight system over `standardOptions`. -/
def demoSystem : BacklightSystem := BacklightSystem.init (some standardOptions)

/-- A typical recording visualizer configuration. -/
def recOptions : RVOptions := ⟨1, "spectrum", 1/2⟩

/-- A freshly constructed recording optimizer over `recOptions`. -/
def recDemo : RecordingOptimizer := RecordingOptimizer.init (some recOptions)

/-- The snapshot `applyOptimizedSettings` takes of a parameter bag. -/
def snapshotOf (v : VisualizerOptions) : PreviousSettings :=
  ⟨v.colorIntensity, v.edgeFalloff, v.transitionSpeed, v.visualizationMode⟩

/-! Section: C8 -/

theorem satChannel_bounds (tot : ℤ) (n : ℕ) (sat : ℚ) (htot : 0 ≤ tot) (hs : 0 ≤ sat) :
    0 ≤ min 255 ⌊((⌊(tot : ℚ) / (n : ℚ)⌋ : ℚ)) * sat⌋ ∧
    min 255 ⌊((⌊(tot : ℚ) / (n : ℚ)⌋ : ℚ)) * sat⌋ ≤ 255 := by
  constructor
  · refine le_min (by norm_num) (Int.floor_nonneg.mpr (mul_nonneg ?_ hs))
    have hq : (0 : ℚ) ≤ (tot : ℚ) / (n : ℚ) :=
      div_nonneg (by exact_mod_cast htot) (by positivity)
    exact_mod_cast Int.floor_nonneg.mpr hq
  · exact min_le_left _ _

/-- C8: for every non-empty zone sequence of byte-valued RGB triples and
every saturation factor in [0.5, 1.5], each channel of the
averaged-and-saturated colour computed by `getAverageColorString` lies in
[0, 255]. -/
theorem c8_saturation_clamp (l : List (ℤ × ℤ × ℤ)) (sat : ℚ)
    (hne : l ≠ [])
    (hb : ∀ c ∈ l, 0 ≤ c.1 ∧ c.1 ≤ 255 ∧ 0 ≤ c.2.1 ∧ c.2.1 ≤ 255 ∧ 0 ≤ c.2.2 ∧ c.2.2 ≤ 255)
    (hs1 : 1/2 ≤ sat) (hs2 : sat ≤ 3/2) :
    0 ≤ (getAverageColor l sat).1 ∧ (getAverageColor l sat).1 ≤ 255 ∧
    0 ≤ (getAverageColor l sat).2.1 ∧ (getAverageColor l sat).2.1 ≤ 255 ∧
    0 ≤ (getAverageColor l sat).2.2 ∧ (getAverageColor l sat).2.2 ≤ 255 := by
  have hs0 : (0 : ℚ) ≤ sat := le_trans (by norm_num) hs1
  have hR : 0 ≤ (l.map (fun c => c.1)).sum := by
    refine List.sum_nonneg ?_
    intro x hx
    obtain ⟨c, hc, rfl⟩ := List.mem_map.mp hx
    exact (hb c hc).1
  have hG : 0 ≤ (l.map (fun c => c.2.1)).sum := by
    refine List.sum_nonneg ?_
    intro x hx
    obtain ⟨c, hc, rfl⟩ := List.mem_map.mp hx
    exact (hb c hc).2.2.1
  have hB : 0 ≤ (l.map (fun c => c.2.2)).sum := by
    refine List.sum_nonneg ?_
    intro x hx
    obtain ⟨c, hc, rfl⟩ := List.mem_map.mp hx
    exact (hb c hc).2.2.2.2.1
  have bR := satChannel_bounds (l.map (fun c => c.1)).sum l.length sat hR hs0
  have bG := satChannel_bounds (l.map (fun c => c.2.1)).sum l.length sat hG hs0
  have bB := satChannel_bounds (l.map (fun c => c.2.2)).sum l.length sat hB hs0
  refine ⟨?_, ?_, ?_, ?_, ?_, ?_⟩
  · exact bR.1
  · exact bR.2
  · exact bG.1
  · exact bG.2
  · exact bB.1
  · exact bB.2

/-- Witness for C8 at the singleton list `[(10, 20, 30)]` with
saturation 1. -/
theorem c8_witness :
    0 ≤ (getAverageColor [(10, 20, 30)] 1).1 ∧
    (getAverageColor [(10, 20, 30)] 1).1 ≤ 255 ∧
    0 ≤ (getAverageColor [(10, 20, 30)] 1).2.1 ∧
    (getAverageColor [(10, 20, 30)] 1).2.1 ≤ 255 ∧
    0 ≤ (getAverageColor [(10, 20, 30)] 1).2.2 ∧
    (getAverageColor [(10, 20, 30)] 1).2.2 ≤ 255 :=
  c8_saturation_clamp [(10, 20, 30)] 1 (by decide) (by decide)
    (by norm_num) (by norm_num)

/-! Section: C9 -/

/-- C9: the zone lengths are fixed at initialization (16 per horizontal
edge, 9 per vertical edge) and `sampleEdgeColors` preserves all four
lengths for any frame of width and height at least the inset offset. -/
theorem c9_zone_lengths (data : List ℤ) (width height : ℕ) (z : EdgeZones)
    (hw : 3 ≤ width) (hh : 3 ≤ height) :
    initializeEdgeZones.top.length = 16 ∧
    initializeEdgeZones.bottom.length = 16 ∧
    initializeEdgeZones.left.length = 9 ∧
    initializeEdgeZones.right.length = 9 ∧
    (sampleEdgeColors data width height z).top.length = z.top.length ∧
    (sampleEdgeColors data width height z).bottom.length = z.bottom.length ∧
    (sampleEdgeColors data width height z).left.length = z.left.length ∧
    (sampleEdgeColors data width height z).right.length = z.right.length := by
  refine ⟨by simp [initializeEdgeZones], by simp [initializeEdgeZones],
    by simp [initializeEdgeZones], by simp [initializeEdgeZones], ?_, ?_, ?_, ?_⟩ <;>
    simp [sampleEdgeColors, length_mapWithIndex]

/-- Witness for C9 on a 3x3 frame starting from the initial zones. -/
theorem c9_witness :
    initializeEdgeZones.top.length = 16 ∧
    initializeEdgeZones.bottom.length = 16 ∧
    initializeEdgeZones.left.length = 9 ∧
    initializeEdgeZones.right.length = 9 ∧
    (sampleEdgeColors [] 3 3 initializeEdgeZones).top.length =
      initializeEdgeZones.top.length ∧
    (sampleEdgeColors [] 3 3 initializeEdgeZones).bottom.length =
      initializeEdgeZones.bottom.length ∧
    (sampleEdgeColors [] 3 3 initializeEdgeZones).left.length =
      initializeEdgeZones.left.length ∧
    (sampleEdgeColors [] 3 3 initializeEdgeZones).right.length =
      initializeEdgeZones.right.length :=
  c9_zone_lengths [] 3 3 initializeEdgeZones (by decide) (by decide)

/-! Section: C10 -/

/-- C10: with `isEnabled = false`, `processFrame` returns immediately: the
state (zones included) is unchanged and no external action — canvas read,
device send or emphasis draw — is performed, regardless of the mode. -/
theorem c10_disabled_noop (s : BacklightSystem) (data : List ℤ) (width height : ℕ)
    (hdis : s.isEnabled = false) :
    s.processFrame data width height = (s, []) := by
  simp [BacklightSystem.processFrame, hdis]

/-- Witness for C10 on a freshly constructed (disabled) system. -/
theorem c10_witness :
    (BacklightSystem.init none).processFrame [] 4 4 = (BacklightSystem.init none, []) :=
  c10_disabled_noop (BacklightSystem.init none) [] 4 4 rfl

/-! Section: C2 -/

/-- C2 counterexample: starting from a parameter bag whose
`visualizationMode` is the empty string (a falsy JS value) in the default
`'adaptive'` mode, `toggle(true)` followed by `toggle(false)` does not
restore the bag: the truthiness guard in `restoreStandardSettings` skips
the mode write-back, leaving `visualizationMode = 'backlight'`. -/
theorem c2_counterexample :
    (((BacklightSystem.init (some ⟨1, 1/2, "fast", ""⟩)).toggle true).toggle
        false).visualizer = some ⟨1, 1/2, "fast", "backlight"⟩ ∧
    (((BacklightSystem.init (some ⟨1, 1/2, "fast", ""⟩)).toggle true).toggle
        false).visualizer ≠ some ⟨1, 1/2, "fast", ""⟩ := by
  simp [BacklightSystem.init, BacklightSystem.toggle,
    BacklightSystem.applyOptimizedSettings, BacklightSystem.enableEdgeEmphasisMode,
    BacklightSystem.restoreStandardSettings, truthyStr]

/-- C2 (amended): the `applyOptimizedSettings`/`restoreStandardSettings`
round trip (in particular `toggle(true)` then `toggle(false)` with no
`setMode` in between) restores the parameter bag exactly, provided no
previous visualization mode is outstanding and, when the mode is
`'adaptive'`, the starting `visualizationMode` is truthy (non-empty). -/
theorem c2_roundtrip (s : BacklightSystem) (v : VisualizerOptions)
    (hv : s.visualizer = some v) (hp : s.previousVisualizationMode = none)
    (hm : s.backlightMode = "adaptive" → v.visualizationMode ≠ "") :
    ((s.toggle true).toggle false).visualizer = some v := by
  obtain ⟨ci, ef, ts, vm⟩ := v
  by_cases hmode : s.backlightMode = "adaptive"
  · have hvm : vm ≠ "" := hm hmode
    simp [BacklightSystem.toggle, BacklightSystem.applyOptimizedSettings, hv, hmode,
      BacklightSystem.enableEdgeEmphasisMode, BacklightSystem.restoreStandardSettings,
      truthyStr, hvm]
  · simp [BacklightSystem.toggle, BacklightSystem.applyOptimizedSettings, hv, hmode,
      BacklightSystem.enableEdgeEmphasisMode, BacklightSystem.restoreStandardSettings,
      truthyStr, hp]

/-- Witness for the amended C2 on `demoSystem`. -/
theorem c2_witness :
    ((demoSystem.toggle true).toggle false).visualizer = some standardOptions :=
  c2_roundtrip demoSystem standardOptions rfl rfl (fun _ => by decide)

/-! Section: C3 -/

/-- C3 counterexample: a second `applyOptimizedSettings` while a snapshot
is outstanding silently replaces the snapshot with the already-optimized
values, so the eventually restored bag is the optimized one
(`colorIntensity` 6/5, mode `'backlight'`), not the standard one the first
snapshot recorded. -/
theorem c3_counterexample :
    (demoSystem.applyOptimizedSettings.applyOptimizedSettings).previousSettings ≠
      (demoSystem.applyOptimizedSettings).previousSettings ∧
    (demoSystem.applyOptimizedSettings.applyOptimizedSettings.restoreStandardSettings).visualizer =
      some ⟨6/5, 7/10, "medium", "backlight"⟩ ∧
    (demoSystem.applyOptimizedSettings.applyOptimizedSettings.restoreStandardSettings).visualizer ≠
      some standardOptions := by
  simp [demoSystem, standardOptions, BacklightSystem.init,
    BacklightSystem.applyOptimizedSettings, BacklightSystem.enableEdgeEmphasisMode,
    BacklightSystem.restoreStandardSettings, truthyStr]

/-- C3 (amended): `applyOptimizedSettings` always overwrites
`previousSettings` with a snapshot of the current bag, silently replacing
any outstanding snapshot that differs from it; the snapshot eventually
restored is the most recently taken one, not necessarily the one taken on
leaving the standard state. -/
theorem c3_snapshot_replaced (s : BacklightSystem) (v : VisualizerOptions)
    (p : PreviousSettings) (hv : s.visualizer = some v)
    (hp : s.previousSettings = some p) (hne : p ≠ snapshotOf v) :
    (s.applyOptimizedSettings).previousSettings = some (snapshotOf v) ∧
    (s.applyOptimizedSettings).previousSettings ≠ some p := by
  have hmain : (s.applyOptimizedSettings).previousSettings = some (snapshotOf v) := by
    by_cases hmode : s.backlightMode = "adaptive" <;>
      simp [BacklightSystem.applyOptimizedSettings, hv, hmode,
        BacklightSystem.enableEdgeEmphasisMode, snapshotOf]
  refine ⟨hmain, ?_⟩
  rw [hmain]
  simp only [ne_eq, Option.some_inj]
  exact fun h => hne h.symm

/-- Witness for the amended C3: a system already holding a different
outstanding snapshot. -/
theorem c3_witness :
    ({ demoSystem with
        previousSettings := some ⟨2, 2, "slow", "bars"⟩ }.applyOptimizedSettings).previousSettings =
      some (snapshotOf standardOptions) ∧
    ({ demoSystem with
        previousSettings := some ⟨2, 2, "slow", "bars"⟩ }.applyOptimizedSettings).previousSettings ≠
      some ⟨2, 2, "slow", "bars"⟩ :=
  c3_snapshot_replaced
    { demoSystem with previousSettings := some ⟨2, 2, "slow", "bars"⟩ }
    standardOptions ⟨2, 2, "slow", "bars"⟩ rfl rfl (by decide)

/-! Section: C4 -/

/-- C4 counterexample: after an `applyOptimizedSettings` /
`restoreStandardSettings` pair the snapshot is still outstanding —
`restoreStandardSettings` never nulls `previousSettings`. -/
theorem c4_counterexample :
    (demoSystem.applyOptimizedSettings.restoreStandardSettings).previousSettings =
      some (snapshotOf standardOptions) ∧
    (demoSystem.applyOptimizedSettings.restoreStandardSettings).previousSettings ≠ none := by
  simp [demoSystem, standardOptions, snapshotOf, BacklightSystem.init,
    BacklightSystem.applyOptimizedSettings, BacklightSystem.enableEdgeEmphasisMode,
    BacklightSystem.restoreStandardSettings, truthyStr]

/-- C4 (amended): with a snapshot outstanding, `restoreStandardSettings`
writes `colorIntensity`, `edgeFalloff` and `transitionSpeed` back
verbatim; `visualizationMode` is written back only from a truthy
`previousVisualizationMode` (and is left as-is when none is recorded); the
snapshot itself is left in place, not cleared. With no snapshot
outstanding the call is a no-op that mutates nothing and raises no
error. -/
theorem c4_restore (s : BacklightSystem) (v : VisualizerOptions) (p : PreviousSettings) :
    (s.visualizer = some v → s.previousSettings = some p →
      s.previousVisualizationMode = none →
      s.restoreStandardSettings =
        { s with visualizer := some { v with
            colorIntensity := p.colorIntensity
            edgeFalloff := p.edgeFalloff
            transitionSpeed := p.transitionSpeed } }) ∧
    (∀ m : String, s.visualizer = some v → s.previousSettings = some p →
      s.previousVisualizationMode = some m → m ≠ "" →
      s.restoreStandardSettings =
        { s with
          visualizer := some { v with
            colorIntensity := p.colorIntensity
            edgeFalloff := p.edgeFalloff
            transitionSpeed := p.transitionSpeed
            visualizationMode := m }
          previousVisualizationMode := none }) ∧
    (s.previousSettings = none → s.restoreStandardSettings = s) := by
  refine ⟨?_, ?_, ?_⟩
  · intro hv hp hpv
    simp [BacklightSystem.restoreStandardSettings, hv, hp, hpv, truthyStr]
  · intro m hv hp hpv hm
    simp [BacklightSystem.restoreStandardSettings, hv, hp, hpv, truthyStr, hm]
  · intro hp
    cases hvis : s.visualizer <;>
      simp [BacklightSystem.restoreStandardSettings, hvis, hp]

/-- Witness for the amended C4 on `demoSystem` (no snapshot outstanding:
the call is a no-op). -/
theorem c4_witness : demoSystem.restoreStandardSettings = demoSystem :=
  (c4_restore demoSystem standardOptions (snapshotOf standardOptions)).2.2 rfl

/-! Section: C7 -/

/-- C7 counterexample: for a zero-width frame (whose pixel buffer is
empty), `sampleEdgeColors` does not short-circuit: the first top zone
entry, previously the colour `[0, 0, 0]`, is overwritten with an
out-of-range (undefined-channel) sample instead of being retained. -/
theorem c7_counterexample :
    (sampleEdgeColors [] 0 5 initializeEdgeZones).top.get? 0 =
      some (none, none, none) ∧
    initializeEdgeZones.top.get? 0 = some (some 0, some 0, some 0) ∧
    (sampleEdgeColors [] 0 5 initializeEdgeZones).top.get? 0 ≠
      initializeEdgeZones.top.get? 0 := by
  decide

/-- C7 (amended): `sampleEdgeColors` has no degenerate-frame guard: on a
zero-width or zero-height frame (whose `getImageData` buffer is empty) it
still raises no error but overwrites every entry of all four zone arrays
with out-of-range samples (`undefined` channels), rather than retaining
the previous values. -/
theorem c7_degenerate_overwrites (z : EdgeZones) (width height : ℕ)
    (hdeg : width = 0 ∨ height = 0) :
    sampleEdgeColors [] width height z =
      { top := List.replicate z.top.length (none, none, none)
        bottom := List.replicate z.bottom.length (none, none, none)
        left := List.replicate z.left.length (none, none, none)
        right := List.replicate z.right.length (none, none, none) } := by
  unfold sampleEdgeColors
  simp only [EdgeZones.mk.injEq]
  refine ⟨?_, ?_, ?_, ?_⟩ <;>
    { apply mapWithIndex_const; intro i a; simp [samplePx_nil] }

/-- Witness for the amended C7 at a 0x5 frame and the initial zones. -/
theorem c7_witness :
    sampleEdgeColors [] 0 5 initializeEdgeZones =
      { top := List.replicate initializeEdgeZones.top.length (none, none, none)
        bottom := List.replicate initializeEdgeZones.bottom.length (none, none, none)
        left := List.replicate initializeEdgeZones.left.length (none, none, none)
        right := List.replicate initializeEdgeZones.right.length (none, none, none) } :=
  c7_degenerate_overwrites initializeEdgeZones 0 5 (Or.inl rfl)

/-! Section: C5 -/

/-- A 16-entry top edge that is black everywhere except the middle zone
(index 8), which is pure red. -/
def goveeTop : List Px :=
  List.replicate 8 ((some 0, some 0, some 0) : Px) ++
    [((some 255, some 0, some 0) : Px)] ++
    List.replicate 7 ((some 0, some 0, some 0) : Px)

/-- Edge zones built from `goveeTop`. -/
def goveeZones : EdgeZones := { initializeEdgeZones with top := goveeTop }

/-- The list `goveeTop` as plain integer triples, for feeding the aggregator. -/
def goveeTopPlain : List (ℤ × ℤ × ℤ) :=
  List.replicate 8 ((0, 0, 0) : ℤ × ℤ × ℤ) ++
    [((255, 0, 0) : ℤ × ℤ × ℤ)] ++
    List.replicate 7 ((0, 0, 0) : ℤ × ℤ × ℤ)

/-- C5 counterexample: with only Govee connected, the per-frame dispatch
sends a payload whose red channel is 255 — the raw middle top-zone sample
— whereas the average-and-saturate aggregation of the same top edge (at
the configured saturation 1.2) yields red 18. The payload is built from a
raw, vendor-chosen zone sample, not from the aggregate. -/
theorem c5_counterexample :
    sendColorDataToConnectedSystems [⟨"Govee", true⟩] goveeZones =
      [FrameEffect.sendGovee
        { device := "H6199", model := "H6199", cmdName := "color",
          r := some 255, g := some 0, b := some 0 }] ∧
    getAverageColor goveeTopPlain (6/5) = (18, 0, 0) ∧
    (some 255 : Option ℤ) ≠ some 18 := by
  refine ⟨?_, ?_, by decide⟩
  · simp [sendColorDataToConnectedSystems, formatDataForGovee, goveeZones,
      goveeTop, initializeEdgeZones]
  · norm_num [getAverageColor, goveeTopPlain, List.replicate]

/-- C5 (amended): in direct mode with a connected Govee record, the
per-frame dispatch sends exactly one Govee payload, built by
`formatDataForGovee` from the raw middle top-edge entry of the freshly
sampled zones — a single point sample, not the output of the
average-and-saturate aggregation; the Philips Hue and WLED senders build
no colour payload at all. -/
theorem c5_raw_sample_dispatch (s : BacklightSystem) (data : List ℤ) (width height : ℕ)
    (hen : s.isEnabled = true) (hm : s.backlightMode = "direct")
    (hsys : s.supportedSystems = [⟨"Govee", true⟩]) :
    s.processFrame data width height =
      ({ s with edgeZones := sampleEdgeColors data width height s.edgeZones },
       [FrameEffect.readPixels,
        FrameEffect.sendGovee
          (formatDataForGovee (sampleEdgeColors data width height s.edgeZones))]) := by
  simp [BacklightSystem.processFrame, hen, hm, hsys, sendColorDataToConnectedSystems]

/-- Witness for the amended C5 on a direct-mode system with Govee
connected. -/
theorem c5_witness :
    ({ demoSystem with
        isEnabled := true, backlightMode := "direct",
        supportedSystems := [⟨"Govee", true⟩] } : BacklightSystem).processFrame [] 0 0 =
      ({ { demoSystem with
            isEnabled := true, backlightMode := "direct",
            supportedSystems := [⟨"Govee", true⟩] } with
          edgeZones := sampleEdgeColors [] 0 0
            ({ demoSystem with
                isEnabled := true, backlightMode := "direct",
                supportedSystems := [⟨"Govee", true⟩] } : BacklightSystem).edgeZones },
       [FrameEffect.readPixels,
        FrameEffect.sendGovee
          (formatDataForGovee (sampleEdgeColors [] 0 0
            ({ demoSystem with
                isEnabled := true, backlightMode := "direct",
                supportedSystems := [⟨"Govee", true⟩] } : BacklightSystem).edgeZones))]) :=
  c5_raw_sample_dispatch
    { demoSystem with
        isEnabled := true, backlightMode := "direct",
        supportedSystems := [⟨"Govee", true⟩] } [] 0 0 rfl rfl rfl

/-! Section: C1 -/

/-- C1 counterexample: for a correctly alternating pair
(`startRecording` then `stopRecording` on a fresh optimizer), the resolved
state still holds the snapshot: `originalSettings` equals the
pre-`startRecording` options instead of having been cleared —
`disable()` never nulls it. -/
theorem c1_counterexample :
    ((recDemo.startRecording true).1.stopRecording).map
        (fun p => p.1.originalSettings) = Except.ok (some recOptions) ∧
    (some recOptions : Option RVOptions) ≠ none := by
  refine ⟨?_, by simp⟩
  simp [recDemo, recOptions, RecordingOptimizer.init, RecordingOptimizer.startRecording,
    RecordingOptimizer.enable, RecordingOptimizer.stopRecording, RecordingOptimizer.disable,
    Except.map]

/-- C1 (amended): for any correctly alternating pair — `startRecording`
with a canvas on an optimizer whose visualizer holds options `v`, any
sequence of `ondataavailable` events, then `stopRecording` — the promise
resolves with the state obtained by applying `disable()` exactly once to
the session state (the resolution), and in that state the visualizer's
`colorSaturation`, `visualizationMode` and `edgeEmphasis` equal their
pre-`startRecording` values and the session is over; `originalSettings`,
however, is not cleared: it still holds the snapshot `v`. -/
theorem c1_stop_restores (s : RecordingOptimizer) (v : RVOptions) (evs : List ℕ)
    (hv : s.visualizer = some v) :
    ((s.startRecording true).1.deliverData evs).stopRecording =
      Except.ok ((((s.startRecording true).1.deliverData evs).disable).1,
        (((s.startRecording true).1.deliverData evs).disable).1.recordedChunks) ∧
    ((((s.startRecording true).1.deliverData evs).disable).1).visualizer = some v ∧
    ((((s.startRecording true).1.deliverData evs).disable).1).isEnabled = false ∧
    ((((s.startRecording true).1.deliverData evs).disable).1).originalSettings = some v := by
  obtain ⟨hvz, hos, hen, hrec⟩ := deliverData_fields evs (s.startRecording true).1
  have h1 : (s.startRecording true).1.visualizer = some ⟨13/10, "backlight", 9/10⟩ := by
    simp [RecordingOptimizer.startRecording, RecordingOptimizer.enable, hv]
  have h2 : (s.startRecording true).1.originalSettings = some v := by
    simp [RecordingOptimizer.startRecording, RecordingOptimizer.enable, hv]
  have h3 : (s.startRecording true).1.recorder = true := by
    simp [RecordingOptimizer.startRecording, RecordingOptimizer.enable, hv]
  rw [h1] at hvz
  rw [h2] at hos
  rw [h3] at hrec
  have hdis : (((s.startRecording true).1.deliverData evs).disable) =
      ({ ((s.startRecording true).1.deliverData evs) with
          visualizer := some v, isEnabled := false }, true) := by
    unfold RecordingOptimizer.disable
    rw [hvz, hos]
    simp [hos]
  refine ⟨?_, ?_, ?_, ?_⟩
  · unfold RecordingOptimizer.stopRecording
    rw [hrec]
    simp
  · rw [hdis]
  · rw [hdis]
  · rw [hdis]; simpa using hos

/-- Witness for the amended C1 on `recDemo` with one data event. -/
theorem c1_witness :
    ((recDemo.startRecording true).1.deliverData [5]).stopRecording =
      Except.ok ((((recDemo.startRecording true).1.deliverData [5]).disable).1,
        (((recDemo.startRecording true).1.deliverData [5]).disable).1.recordedChunks) ∧
    ((((recDemo.startRecording true).1.deliverData [5]).disable).1).visualizer =
      some recOptions ∧
    ((((recDemo.startRecording true).1.deliverData [5]).disable).1).isEnabled = false ∧
    ((((recDemo.startRecording true).1.deliverData [5]).disable).1).originalSettings =
      some recOptions :=
  c1_stop_restores recDemo recOptions [5] rfl

/-! Section: C6 -/

/-- C6 counterexample: calling `startRecording` while a session is active
is not rejected — it returns `true` — and it mutates state: the saved
`originalSettings` is overwritten with the already-optimized option
values, no longer the pre-session ones. -/
theorem c6_counterexample :
    ((recDemo.startRecording true).1.startRecording true).2 = true ∧
    ((recDemo.startRecording true).1.startRecording true).1.originalSettings =
      some ⟨13/10, "backlight", 9/10⟩ ∧
    (recDemo.startRecording true).1.originalSettings = some recOptions ∧
    (⟨13/10, "backlight", 9/10⟩ : RVOptions) ≠ recOptions := by
  refine ⟨?_, ?_, ?_, ?_⟩ <;>
    simp [recDemo, recOptions, RecordingOptimizer.init, RecordingOptimizer.startRecording,
      RecordingOptimizer.enable]

/-- C6 (amended): `startRecording` performs no active-session check:
called with a canvas while a session is active (`recorder` present), it
succeeds (returns `true`), overwrites `originalSettings` with the current
visualizer options (already the optimized ones during a session), installs
a fresh recorder and resets the accumulated chunks; only a missing canvas
is rejected synchronously (`false`) with no state change. -/
theorem c6_start_while_active (s : RecordingOptimizer) (v : RVOptions)
    (hv : s.visualizer = some v) (hactive : s.recorder = true) :
    (s.startRecording true).2 = true ∧
    (s.startRecording true).1.originalSettings = some v ∧
    (s.startRecording true).1.recorder = true ∧
    (s.startRecording true).1.recordedChunks = [] ∧
    s.startRecording false = (s, false) := by
  refine ⟨?_, ?_, ?_, ?_, ?_⟩ <;>
    simp [RecordingOptimizer.startRecording, RecordingOptimizer.enable, hv]

/-- Witness for the amended C6: a second `startRecording` on an optimizer
already recording. -/
theorem c6_witness :
    (((recDemo.startRecording true).1.startRecording true).2 = true ∧
      ((recDemo.startRecording true).1.startRecording true).1.originalSettings =
        some ⟨13/10, "backlight", 9/10⟩ ∧
      ((recDemo.startRecording true).1.startRecording true).1.recorder = true ∧
      ((recDemo.startRecording true).1.startRecording true).1.recordedChunks = [] ∧
      (recDemo.startRecording true).1.startRecording false =
        ((recDemo.startRecording true).1, false)) :=
  c6_start_while_active (recDemo.startRecording true).1 ⟨13/10, "backlight", 9/10⟩
    (by simp [recDemo, recOptions, RecordingOptimizer.init,
      RecordingOptimizer.startRecording, RecordingOptimizer.enable])
    (by simp [recDemo, recOptions, RecordingOptimizer.init,
      RecordingOptimizer.startRecording, RecordingOptimizer.enable])
